import Mathlib

set_option linter.unusedVariables false

/-!
Shallow embedding of the `mbtiles` package (file `mbtiles.go`): a read-only
access layer over an MBTiles container.  The embedding models

* the tile-format detector `detectTileFormat` over raw byte buffers,
* the handle constructor `NewDB` over the results of its construction-time
  probes (the SQL store is an external collaborator, so each query the Go
  code issues is modelled by the value it returns),
* the grid reader `ReadGrid` with its key-record merge step, and
* the metadata reader `ReadMetadata` with its zoom-bounds fallback.

External collaborators are modelled as follows.  Serialized JSON payloads
(grid blob bodies, `key_json` column values) are modelled by their parse
result, `Option Json`, with `none` standing for text that is not
well-formed JSON; this reflects that `encoding/json` is used but not
reimplemented by the source.  The zlib/gzip envelopes of `compress/zlib`
and `compress/gzip` are modelled by a tag on the blob: a reader for one
envelope succeeds exactly on blobs carrying that tag and fails with a
header error otherwise, which is the observable behaviour the source
depends on.  Go numbers appearing in the claims are integers, so JSON
numbers are modelled as `Int`.
-/

/-- Tile format enumeration, `TileFormat` in the source (mbtiles.go lines
21-31): UNKNOWN, GZIP, ZLIB, PNG, JPG, PBF, WEBP. -/
inductive TileFormat where
  | UNKNOWN
  | GZIP
  | ZLIB
  | PNG
  | JPG
  | PBF
  | WEBP
deriving DecidableEq, Repr

open TileFormat

/-- Model of `TileFormat.String` (mbtiles.go lines 33-46). -/
def TileFormat.toName : TileFormat → String
  | PNG => "png"
  | JPG => "jpg"
  | PBF => "pbf"
  | WEBP => "webp"
  | _ => ""

/-- Model of `TileFormat.ContentType` (mbtiles.go lines 48-61). -/
def TileFormat.contentType : TileFormat → String
  | PNG => "image/png"
  | JPG => "image/jpeg"
  | PBF => "application/x-protobuf"
  | WEBP => "image/webp"
  | _ => ""

/-- Raw bytes, modelled as a list of byte values. -/
abbrev Bytes := List Nat

/-- The magic-byte pattern table of `detectTileFormat` (mbtiles.go lines
345-351).  The Go map is iterated in unspecified order; this list fixes the
source-literal order as canonical, and order-independence is proved
separately from the mutual exclusivity of the patterns. -/
def tilePatterns : List (TileFormat × Bytes) :=
  [(GZIP, [0x1f, 0x8b]),
   (ZLIB, [0x78, 0x9c]),
   (PNG,  [0x89, 0x50, 0x4E, 0x47, 0x0D, 0x0A, 0x1A, 0x0A]),
   (JPG,  [0xFF, 0xD8, 0xFF]),
   (WEBP, [0x52, 0x49, 0x46, 0x46, 0xc0, 0x00, 0x00, 0x00, 0x57, 0x45, 0x42, 0x50, 0x56, 0x50])]

/-- The scan loop of `detectTileFormat` (mbtiles.go lines 353-359) over a
given pattern list: first pattern that is a byte-prefix of the buffer wins;
if none matches, the result is `(UNKNOWN, error)`. -/
def detectList : List (TileFormat × Bytes) → Bytes → TileFormat × Option String
  | [], _ => (UNKNOWN, some "Could not detect tile format")
  | (f, p) :: rest, data => if p.isPrefixOf data then (f, none) else detectList rest data

/-- Model of `detectTileFormat` (mbtiles.go lines 344-360), returning the Go pair
`(TileFormat, error)` with the error modelled as `Option String`. -/
def detectTileFormat (data : Bytes) : TileFormat × Option String :=
  detectList tilePatterns data

/-- Generic JSON values as decoded by `encoding/json` into
`interface{}`; numbers restricted to integers (all claims use integers). -/
inductive Json where
  | null
  | bool (b : Bool)
  | num (n : Int)
  | str (s : String)
  | arr (elems : List Json)
  | obj (fields : List (String × Json))

/-- A stored blob: compression envelope tag plus the payload, the payload
being the parse result of the decompressed text (`none` = not well-formed
JSON). -/
structure Blob where
  env : TileFormat
  content : Option Json

/-- Result of a single-row query (`QueryRow(...).Scan`): a value, the
`sql.ErrNoRows` case, or another error. -/
inductive QRes (α : Type) where
  | ok (a : α)
  | noRows
  | err (msg : String)

/-- The behaviour of the handle's SQL connection for the queries the read
operations issue (the `*sql.DB` collaborator held in the `db` field). -/
structure Conn where
  tileQuery : Nat → Nat → Nat → QRes Bytes
  gridQuery : Nat → Nat → Nat → QRes Blob
  gridDataQuery : Nat → Nat → Nat → Except String (List (String × Option Json))
  metadataQuery : Except String (List (String × String))
  zoomQuery : Except String (Int × Int)

/-- The `DB` struct (mbtiles.go lines 63-71), with the `*sql.DB` field
replaced by its modelled query behaviour.  Note the Go struct has a
`filename` field; `NewDB`'s struct literal leaves it at its zero value. -/
structure DB where
  filename : String
  conn : Conn
  tileformat : TileFormat
  timestamp : Int
  hasUTFGrid : Bool
  utfgridCompression : TileFormat
  hasUTFGridData : Bool

/-- The construction-time probe results `NewDB` consumes: `sql.Open`
success, `os.Stat` success and modification time (in seconds; the
rounding of sub-second precision is external), the sample-tile query, the
`grids` view count, the sample-grid query, and the `grid_data` view
count. -/
structure Probe where
  openOk : Bool
  statOk : Bool
  modTime : Int
  sampleTile : QRes Bytes
  gridsViewCount : Except String Nat
  sampleGrid : QRes Bytes
  gridDataViewCount : Except String Nat

/-- Splitting of a character list at every occurrence of a separator
character (the behaviour of `strings.Split` for a one-character
separator, over the characters of the string). -/
def splitOnChar (sep : Char) : List Char → List (List Char)
  | [] => [[]]
  | c :: cs =>
    let rest := splitOnChar sep cs
    if c = sep then [] :: rest
    else
      match rest with
      | [] => [[c]]
      | piece :: pieces => (c :: piece) :: pieces

/-- The identifier computation of `NewDB` (mbtiles.go lines 76-77):
`filepath.Split` keeps the part after the final separator, then
`strings.Split(id, ".")[0]` keeps the part before the first dot. -/
def newDBId (filename : String) : String :=
  let base := (splitOnChar '/' filename.data).getLastD []
  String.mk ((splitOnChar '.' base).headD [])

/-- Model of `NewDB` (mbtiles.go lines 75-145).  Mirrors the source exactly: the
computed identifier is bound and then never used, and the struct literal
at lines 103-107 leaves the `filename` field at its zero value `""`.
`sql.ErrNoRows` on the sample-tile query is a fatal error (line 93-95),
while on the sample-grid query it merely leaves grid support off (lines
120-124). -/
def NewDB (filename : String) (p : Probe) (conn : Conn) : Except String DB :=
  let _id := newDBId filename
  if !p.openOk then .error "sql open error"
  else if !p.statOk then .error ("could not read file stats for mbtiles file: " ++ filename)
  else
    match p.sampleTile with
    | .err e => .error e
    | .noRows => .error "sql: no rows in result set"
    | .ok data =>
      match detectTileFormat data with
      | (_, some e) => .error e
      | (tf, none) =>
        let tileformat := if tf == GZIP then PBF else tf
        let out : DB :=
          { filename := "", conn := conn, tileformat := tileformat, timestamp := p.modTime,
            hasUTFGrid := false, utfgridCompression := UNKNOWN, hasUTFGridData := false }
        match p.gridsViewCount with
        | .error e => .error e
        | .ok count =>
          if count == 1 then
            match p.sampleGrid with
            | .err e => .error ("could not read sample grid to determine type: " ++ e)
            | .noRows => .ok out
            | .ok gridData =>
              match detectTileFormat gridData with
              | (_, some e) => .error ("could not determine UTF Grid compression type: " ++ e)
              | (gc, none) =>
                match p.gridDataViewCount with
                | .error e => .error e
                | .ok c2 =>
                  .ok { out with
                          hasUTFGrid := true
                          utfgridCompression := gc
                          hasUTFGridData := c2 == 1 }
          else .ok out

/-- Model of `ReadTile` (mbtiles.go lines 148-158): `sql.ErrNoRows` yields an empty
result (`none`) and no error; other errors are surfaced. -/
def ReadTile (tileset : DB) (z x y : Nat) : Except String (Option Bytes) :=
  match tileset.conn.tileQuery z x y with
  | .noRows => .ok none
  | .err e => .error e
  | .ok d => .ok (some d)

/-- Insert-or-replace into an association list, the model of assignment
into a Go map (`m[k] = v`). -/
def upsert {α : Type} : List (String × α) → String → α → List (String × α)
  | [], k, v => [(k, v)]
  | (k', v') :: rest, k, v =>
    if k' == k then (k, v) :: rest else (k', v') :: upsert rest k v

/-- Key lookup in an association list, the model of Go map indexing. -/
def mlookup {α : Type} : List (String × α) → String → Option α
  | [], _ => none
  | (k', v) :: rest, k => if k' == k then some v else mlookup rest k

/-- The per-row decode of `ReadGrid` (mbtiles.go lines 194-196):
`valuejson := make(map[string]interface{}); json.Unmarshal(value, &valuejson)`
with the error ignored.  Unmarshal fills the map only when the value is a
JSON object; on malformed text, JSON null, or any non-object JSON value
the map is left empty (the error, when any, is discarded by the source). -/
def unmarshalKeyJson : Option Json → List (String × Json)
  | some (Json.obj o) => o
  | _ => []

/-- Model of `zlib.NewReader` as observed by the source: succeeds exactly on a
zlib-enveloped blob, yielding its decompressed payload. -/
def zlibNewReader (b : Blob) : Except String (Option Json) :=
  if b.env == ZLIB then .ok b.content else .error "zlib: invalid header"

/-- Model of `gzip.NewReader` as observed by the source: succeeds exactly on a
gzip-enveloped blob, yielding its decompressed payload. -/
def gzipNewReader (b : Blob) : Except String (Option Json) :=
  if b.env == GZIP then .ok b.content else .error "gzip: invalid header"

/-- Outcome of `ReadGrid`: the final value of `*data` on success, an
error return, or a runtime panic (the source can panic when it assigns
into a nil map, mbtiles.go line 230). -/
inductive GridOutcome where
  | ok (data : Option Blob)
  | err (msg : String)
  | panic (msg : String)

/-- Model of `ReadGrid` (mbtiles.go lines 163-245), translated step by step:
no-UTFGrid capability error (164-166); grid lookup with `sql.ErrNoRows`
as empty result (168-175); when `grid_data` exists, the key rows are
folded into `keydata` via `unmarshalKeyJson` with the unmarshal error
ignored (189-197); empty `keydata` returns the blob unmodified (199-201);
the envelope reader is zlib when the handle's grid compression is ZLIB
and gzip otherwise (210-222); `jsonDecoder.Decode(&utfjson)` leaves
`utfjson` nil unless the payload is a JSON object, and its error is
ignored, so a non-object payload makes the assignment
`utfjson["data"] = keydata` panic (224-230); the stale `if err != nil`
at 231-233 is dead code (`err` is nil there) and is not modelled; the
re-encode writes through a zlib writer when the compression is ZLIB and
a gzip writer otherwise (215, 221, 236-242). -/
def ReadGrid (tileset : DB) (z x y : Nat) : GridOutcome :=
  if !tileset.hasUTFGrid then .err "Tileset does not contain UTFgrids"
  else
    match tileset.conn.gridQuery z x y with
    | .noRows => .ok none
    | .err e => .err e
    | .ok blob =>
      if tileset.hasUTFGridData then
        match tileset.conn.gridDataQuery z x y with
        | .error e => .err ("cannot fetch grid data: " ++ e)
        | .ok rows =>
          let keydata := rows.foldl
            (fun kd r => upsert kd r.1 (Json.obj (unmarshalKeyJson r.2))) []
          if keydata.isEmpty then .ok (some blob)
          else
            match (if tileset.utfgridCompression == ZLIB
                   then zlibNewReader blob else gzipNewReader blob) with
            | .error e => .err e
            | .ok content =>
              match content with
              | some (Json.obj o) =>
                let utfjson := upsert o "data" (Json.obj keydata)
                let outEnv := if tileset.utfgridCompression == ZLIB then ZLIB else GZIP
                .ok (some { env := outEnv, content := some (Json.obj utfjson) })
              | _ => .panic "assignment to entry in nil map"
      else .ok (some blob)

/-- Model of `strconv.Atoi`: optional sign followed by at least one digit;
anything else is a syntax error.  (Overflow is not modelled.) -/
def Atoi (s : String) : Except String Int :=
  match s.data with
  | [] => .error "invalid syntax"
  | c :: rest =>
    let signed : Bool × List Char :=
      if c = '-' then (true, rest) else if c = '+' then (false, rest) else (false, c :: rest)
    if signed.2.isEmpty || !signed.2.all Char.isDigit then .error "invalid syntax"
    else
      let n : Int := signed.2.foldl (fun acc ch => acc * 10 + (Int.ofNat (ch.toNat - 48))) 0
      .ok (if signed.1 then -n else n)

/-- A value of the typed metadata mapping built by `ReadMetadata`:
integer (`minzoom`/`maxzoom`), float sequence (`bounds`/`center`),
plain string (unknown keys), or a JSON value spliced from the `json`
metadata entry. -/
inductive MetaVal where
  | int (n : Int)
  | floats (xs : List Rat)
  | str (s : String)
  | jsonv (j : Json)

/-- The typed metadata mapping (`map[string]interface{}` in the source). -/
abbrev Metadata := List (String × MetaVal)

/-- Splicing of the fields of the `json` metadata entry into the mapping
being built (`json.Unmarshal([]byte(value), &metadata)` adds each
top-level field to the existing map). -/
def mergeFields (m : Metadata) (fields : List (String × MetaVal)) : Metadata :=
  fields.foldl (fun acc f => upsert acc f.1 f.2) m

/-- The row loop of `ReadMetadata` (mbtiles.go lines 261-283).
`s2f` models `stringToFloats`, which lives in another file of this
repository; `junm` models `json.Unmarshal` of the `json` entry's text
into the mapping (its top-level fields).  Both are external to this file
and are taken as parameters, so every theorem below holds for every
behaviour of theirs. -/
def processMetaRows (s2f : String → Except String (List Rat))
    (junm : String → Except String (List (String × MetaVal))) :
    List (String × String) → Metadata → Except String Metadata
  | [], m => .ok m
  | (key, value) :: rest, m =>
    if key == "maxzoom" || key == "minzoom" then
      match Atoi value with
      | .error e => .error ("cannot read metadata item " ++ key ++ ": " ++ e)
      | .ok n => processMetaRows s2f junm rest (upsert m key (MetaVal.int n))
    else if key == "bounds" || key == "center" then
      match s2f value with
      | .error e => .error ("cannot read metadata item " ++ key ++ ": " ++ e)
      | .ok xs => processMetaRows s2f junm rest (upsert m key (MetaVal.floats xs))
    else if key == "json" then
      match junm value with
      | .error e => .error ("unable to parse JSON metadata item: " ++ e)
      | .ok fields => processMetaRows s2f junm rest (mergeFields m fields)
    else processMetaRows s2f junm rest (upsert m key (MetaVal.str value))

/-- The presence test of mbtiles.go lines 286-288:
`_, hasMinZoom := metadata["minzoom"]; _, hasMaxZoom := metadata["maxzoom"]`. -/
def hasZooms (m : Metadata) : Bool :=
  (mlookup m "minzoom").isSome && (mlookup m "maxzoom").isSome

/-- Model of `ReadMetadata` (mbtiles.go lines 248-298): read the non-empty rows,
process them, then if `minzoom` and `maxzoom` are not both present run
the zoom-bounds fallback query; a failing fallback returns the mapping
built so far with no error (line 292), otherwise both fields are set
from the query result (lines 294-295). -/
def ReadMetadata (s2f : String → Except String (List Rat))
    (junm : String → Except String (List (String × MetaVal)))
    (tileset : DB) : Except String Metadata :=
  match tileset.conn.metadataQuery with
  | .error e => .error e
  | .ok rows =>
    match processMetaRows s2f junm rows [] with
    | .error e => .error e
    | .ok m =>
      if hasZooms m then .ok m
      else
        match tileset.conn.zoomQuery with
        | .error _ => .ok m
        | .ok (mn, mx) =>
          .ok (upsert (upsert m "minzoom" (MetaVal.int mn)) "maxzoom" (MetaVal.int mx))

/-! Concrete instances used by the counterexamples and witnesses below. -/

/-- A connection whose queries all come back empty. -/
def conn0 : Conn :=
  { tileQuery := fun _ _ _ => .noRows
    gridQuery := fun _ _ _ => .noRows
    gridDataQuery := fun _ _ _ => .ok []
    metadataQuery := .ok []
    zoomQuery := .error "sql: Scan error on column index 0" }

/-- A grid body: the JSON object with a single `grid` field holding an
array (the per-pixel key codes of a UTFGrid). -/
def exGridObj : List (String × Json) :=
  [("grid", Json.arr [Json.str "aa", Json.str "ab"])]

/-- A handle with full grid support over a zlib-enveloped grid blob whose
detail rows carry the scalar JSON values `1` and `2` (the merge-property
scenario of the spec). -/
def exDBscalar : DB :=
  { filename := ""
    conn :=
      { conn0 with
          gridQuery := fun _ _ _ => .ok { env := ZLIB, content := some (Json.obj exGridObj) }
          gridDataQuery := fun _ _ _ =>
            .ok [("a", some (Json.num 1)), ("b", some (Json.num 2))] }
    tileformat := PBF
    timestamp := 0
    hasUTFGrid := true
    utfgridCompression := ZLIB
    hasUTFGridData := true }

/-- A handle whose single detail row's `key_json` value is malformed JSON
(`none` in the model). -/
def exDBmalformed : DB :=
  { exDBscalar with
      conn :=
        { conn0 with
            gridQuery := fun _ _ _ => .ok { env := ZLIB, content := some (Json.obj exGridObj) }
            gridDataQuery := fun _ _ _ => .ok [("bad", none)] } }

/-- A handle whose stored grid blob has a valid zlib envelope but whose
decompressed payload is the JSON value `null` (not an object). -/
def exDBnullBody : DB :=
  { exDBscalar with
      conn :=
        { conn0 with
            gridQuery := fun _ _ _ => .ok { env := ZLIB, content := some Json.null }
            gridDataQuery := fun _ _ _ =>
              .ok [("a", some (Json.obj [("x", Json.num 1)]))] } }

/-- A handle whose stored grid blob has a valid zlib envelope but whose
decompressed payload is not JSON at all (`none` in the model). -/
def exDBnotJson : DB :=
  { exDBnullBody with
      conn :=
        { exDBnullBody.conn with
            gridQuery := fun _ _ _ => .ok { env := ZLIB, content := none } }}

/-- A handle with a grid view but no `grid_data` view. -/
def exDBnoDetail : DB :=
  { exDBscalar with
      conn :=
        { conn0 with
            gridQuery := fun _ _ _ => .ok { env := ZLIB, content := some (Json.obj exGridObj) } }
      hasUTFGridData := false }

/-- A handle without grid support. -/
def exDBnoGrid : DB :=
  { exDBscalar with conn := conn0, hasUTFGrid := false, hasUTFGridData := false }

/-- Probe results for a container whose sample tile starts with the gzip
magic bytes and which has no `grids` view. -/
def exProbeGzip : Probe :=
  { openOk := true, statOk := true, modTime := 0
    sampleTile := .ok [0x1f, 0x8b, 0x08, 0x00]
    gridsViewCount := .ok 0
    sampleGrid := .noRows
    gridDataViewCount := .ok 0 }

/-- Probe results for a container whose sample tile is a PNG and which
has no `grids` view. -/
def exProbePng : Probe :=
  { openOk := true, statOk := true, modTime := 0
    sampleTile := .ok [0x89, 0x50, 0x4E, 0x47, 0x0D, 0x0A, 0x1A, 0x0A]
    gridsViewCount := .ok 0
    sampleGrid := .noRows
    gridDataViewCount := .ok 0 }

/-- The handle `NewDB` builds from `exProbeGzip`. -/
def exDBfromGzip : DB :=
  { filename := "", conn := conn0, tileformat := PBF, timestamp := 0,
    hasUTFGrid := false, utfgridCompression := UNKNOWN, hasUTFGridData := false }

/-- The handle `NewDB` builds from `exProbePng`. -/
def exDBfromPng : DB :=
  { exDBfromGzip with tileformat := PNG }

/-- A handle whose metadata rows carry `minzoom` but no `maxzoom`, and
whose zoom-bounds fallback query fails. -/
def exDBmeta : DB :=
  { exDBnoGrid with
      conn :=
        { conn0 with
            metadataQuery := .ok [("name", "test"), ("minzoom", "2")]
            zoomQuery := .error "sql: Scan error on column index 0" } }

/-- Trivial stand-in for the `stringToFloats` parameter in witnesses. -/
def s2f0 : String → Except String (List Rat) := fun _ => .ok []

/-- Trivial stand-in for the `json`-entry unmarshal parameter in
witnesses. -/
def junm0 : String → Except String (List (String × MetaVal)) := fun _ => .ok []

/-! Helper lemmas about the detector. -/

/-- Two byte patterns with distinct first bytes cannot both be prefixes of
the same buffer. -/
theorem hd_excl (a b : Nat) (as bs d : Bytes) (hne : (a == b) = false)
    (h : (a :: as).isPrefixOf d = true) : (b :: bs).isPrefixOf d = false := by
  cases d with
  | nil => simp [List.isPrefixOf] at h
  | cons c cs =>
    simp only [List.isPrefixOf, Bool.and_eq_true, beq_iff_eq] at h
    obtain ⟨rfl, -⟩ := h
    have hba : (b == a) = false := by
      rcases hab : b == a with _ | _
      · rfl
      · rw [beq_iff_eq] at hab
        subst hab
        simp at hne
    simp [List.isPrefixOf, hba]

/-- Conjunction form of `hd_excl`, used for the pairwise-exclusivity
statement. -/
theorem pat_excl (a b : Nat) (as bs : Bytes) (hne : (a == b) = false) (d : Bytes) :
    ¬((a :: as).isPrefixOf d = true ∧ (b :: bs).isPrefixOf d = true) := by
  rintro ⟨h1, h2⟩
  rw [hd_excl a b as bs d hne h1] at h2
  exact Bool.noConfusion h2

/-- The five magic-byte patterns are pairwise mutually exclusive: no byte
buffer has two of them as prefixes.  (Their first bytes are pairwise
distinct.) -/
theorem tilePatterns_pairwise (d : Bytes) :
    List.Pairwise
      (fun a b => ¬(a.2.isPrefixOf d = true ∧ b.2.isPrefixOf d = true)) tilePatterns := by
  simp only [tilePatterns]
  refine List.Pairwise.cons ?_ (List.Pairwise.cons ?_ (List.Pairwise.cons ?_
    (List.Pairwise.cons ?_ (List.pairwise_singleton _ _)))) <;>
    intro b hb <;> fin_cases hb <;> exact pat_excl _ _ _ _ (by decide) d

/-- The scan loop is determined by the sublist of matching patterns: it
returns the format of the first matching pattern, or the unknown result
when none matches. -/
theorem detectList_eq_filter (l : List (TileFormat × Bytes)) (d : Bytes) :
    detectList l d =
      match l.filter (fun fp => fp.2.isPrefixOf d) with
      | [] => (UNKNOWN, some "Could not detect tile format")
      | x :: _ => (x.1, none) := by
  induction l with
  | nil => rfl
  | cons hd tl ih =>
    obtain ⟨f, p⟩ := hd
    by_cases h : p.isPrefixOf d = true
    · simp [detectList, List.filter_cons, h]
    · rw [Bool.not_eq_true] at h
      simp [detectList, List.filter_cons, h, ih]

/-- A list in which no two elements can both satisfy the predicate keeps
at most one element after filtering. -/
theorem filter_len_le_one {α : Type} (m : α → Bool) :
    ∀ (l : List α), List.Pairwise (fun a b => ¬(m a = true ∧ m b = true)) l →
      (l.filter m).length ≤ 1
  | [], _ => by simp
  | a :: l, h => by
    rw [List.pairwise_cons] at h
    by_cases ha : m a = true
    · have hnil : l.filter m = [] := by
        rw [List.filter_eq_nil_iff]
        intro b hb hmb
        exact h.1 b hb ⟨ha, hmb⟩
      simp [List.filter_cons, ha, hnil]
    · rw [Bool.not_eq_true] at ha
      simp only [List.filter_cons, ha, Bool.false_eq_true, if_false]
      exact filter_len_le_one m l h.2

/-- C4: for every byte buffer, if it begins with one of the supported
magic prefixes (gzip `1f 8b`, zlib `78 9c`, the 8-byte PNG signature,
JPEG `ff d8 ff`, or the literal 14-byte RIFF/WEBP pattern),
`detectTileFormat` returns the corresponding format with no error; if it
matches none of the patterns, it returns `UNKNOWN` together with an
error. -/
theorem detect_magic_formats (d : Bytes) :
    (([0x1f, 0x8b] : Bytes).isPrefixOf d = true → detectTileFormat d = (GZIP, none)) ∧
    (([0x78, 0x9c] : Bytes).isPrefixOf d = true → detectTileFormat d = (ZLIB, none)) ∧
    (([0x89, 0x50, 0x4E, 0x47, 0x0D, 0x0A, 0x1A, 0x0A] : Bytes).isPrefixOf d = true →
      detectTileFormat d = (PNG, none)) ∧
    (([0xFF, 0xD8, 0xFF] : Bytes).isPrefixOf d = true → detectTileFormat d = (JPG, none)) ∧
    (([0x52, 0x49, 0x46, 0x46, 0xc0, 0x00, 0x00, 0x00, 0x57, 0x45, 0x42, 0x50, 0x56, 0x50] :
        Bytes).isPrefixOf d = true → detectTileFormat d = (WEBP, none)) ∧
    ((∀ fp ∈ tilePatterns, fp.2.isPrefixOf d = false) →
      detectTileFormat d = (UNKNOWN, some "Could not detect tile format")) := by
  refine ⟨?_, ?_, ?_, ?_, ?_, ?_⟩
  · intro h
    simp [detectTileFormat, tilePatterns, detectList, h]
  · intro h
    have h1 := hd_excl _ 0x1f _ [0x8b] d (by decide) h
    simp [detectTileFormat, tilePatterns, detectList, h, h1]
  · intro h
    have h1 := hd_excl _ 0x1f _ [0x8b] d (by decide) h
    have h2 := hd_excl _ 0x78 _ [0x9c] d (by decide) h
    simp [detectTileFormat, tilePatterns, detectList, h, h1, h2]
  · intro h
    have h1 := hd_excl _ 0x1f _ [0x8b] d (by decide) h
    have h2 := hd_excl _ 0x78 _ [0x9c] d (by decide) h
    have h3 := hd_excl _ 0x89 _ [0x50, 0x4E, 0x47, 0x0D, 0x0A, 0x1A, 0x0A] d (by decide) h
    simp [detectTileFormat, tilePatterns, detectList, h, h1, h2, h3]
  · intro h
    have h1 := hd_excl _ 0x1f _ [0x8b] d (by decide) h
    have h2 := hd_excl _ 0x78 _ [0x9c] d (by decide) h
    have h3 := hd_excl _ 0x89 _ [0x50, 0x4E, 0x47, 0x0D, 0x0A, 0x1A, 0x0A] d (by decide) h
    have h4 := hd_excl _ 0xFF _ [0xD8, 0xFF] d (by decide) h
    simp [detectTileFormat, tilePatterns, detectList, h, h1, h2, h3, h4]
  · intro h
    have h1 := h _ (by simp [tilePatterns] : (GZIP, ([0x1f, 0x8b] : Bytes)) ∈ tilePatterns)
    have h2 := h _ (by simp [tilePatterns] : (ZLIB, ([0x78, 0x9c] : Bytes)) ∈ tilePatterns)
    have h3 := h _ (by simp [tilePatterns] :
      (PNG, ([0x89, 0x50, 0x4E, 0x47, 0x0D, 0x0A, 0x1A, 0x0A] : Bytes)) ∈ tilePatterns)
    have h4 := h _ (by simp [tilePatterns] : (JPG, ([0xFF, 0xD8, 0xFF] : Bytes)) ∈ tilePatterns)
    have h5 := h _ (by simp [tilePatterns] :
      (WEBP, ([0x52, 0x49, 0x46, 0x46, 0xc0, 0x00, 0x00, 0x00, 0x57, 0x45, 0x42, 0x50,
               0x56, 0x50] : Bytes)) ∈ tilePatterns)
    simp [detectTileFormat, tilePatterns, detectList, h1, h2, h3, h4, h5]

/-- Witness for C4: a zlib-signed buffer detects as ZLIB with no error,
and a buffer matching no pattern detects as UNKNOWN with an error. -/
theorem detect_magic_formats_witness :
    detectTileFormat [0x78, 0x9c, 0x01] = (ZLIB, none) ∧
    detectTileFormat [0x00] = (UNKNOWN, some "Could not detect tile format") :=
  ⟨(detect_magic_formats [0x78, 0x9c, 0x01]).2.1 (by decide),
   (detect_magic_formats [0x00]).2.2.2.2.2 (by decide)⟩

/-- C8: the five magic-byte patterns are pairwise mutually exclusive (no
byte buffer has two of them as prefixes), so the scan loop returns the
same result on every permutation of the pattern list — iteration order
of the (unordered) Go map cannot affect `detectTileFormat`'s result. -/
theorem detect_order_independent :
    (∀ d : Bytes,
      List.Pairwise
        (fun a b => ¬(a.2.isPrefixOf d = true ∧ b.2.isPrefixOf d = true)) tilePatterns) ∧
    (∀ l : List (TileFormat × Bytes), l.Perm tilePatterns → ∀ d : Bytes,
      detectList l d = detectTileFormat d) := by
  refine ⟨tilePatterns_pairwise, ?_⟩
  intro l hperm d
  have hf := hperm.filter (fun fp => fp.2.isPrefixOf d)
  have hlen := filter_len_le_one (fun fp => fp.2.isPrefixOf d) tilePatterns
    (tilePatterns_pairwise d)
  simp only [detectTileFormat]
  rw [detectList_eq_filter, detectList_eq_filter]
  rcases hfp : tilePatterns.filter (fun fp => fp.2.isPrefixOf d) with _ | ⟨x, xs⟩
  · rw [hfp] at hf
    rw [hf.eq_nil, hfp]
  · rw [hfp] at hf hlen
    rcases xs with _ | ⟨y, ys⟩
    · rw [List.perm_singleton.mp hf, hfp]
    · simp at hlen

/-- Witness for C8: scanning the reversed pattern list gives the same
result as the source-order scan on a PNG-signed buffer. -/
theorem detect_order_independent_witness :
    detectList tilePatterns.reverse [0x89, 0x50, 0x4E, 0x47, 0x0D, 0x0A, 0x1A, 0x0A, 0x00] =
      detectTileFormat [0x89, 0x50, 0x4E, 0x47, 0x0D, 0x0A, 0x1A, 0x0A, 0x00] :=
  detect_order_independent.2 tilePatterns.reverse (List.reverse_perm tilePatterns)
    [0x89, 0x50, 0x4E, 0x47, 0x0D, 0x0A, 0x1A, 0x0A, 0x00]

/-- C6: for every coordinate, `ReadGrid` on a handle without grid support
(`hasUTFGrid = false`) fails with the capability error.  The handle is
quantified over every connection behaviour, so the error is returned
before (and independently of) any lookup. -/
theorem readGrid_capability_error (db : DB) (z x y : Nat)
    (h : db.hasUTFGrid = false) :
    ReadGrid db z x y = .err "Tileset does not contain UTFgrids" := by
  simp [ReadGrid, h]

/-- Witness for C6: the capability error on a concrete grid-less handle. -/
theorem readGrid_capability_error_witness :
    ReadGrid exDBnoGrid 5 1 2 = .err "Tileset does not contain UTFgrids" :=
  readGrid_capability_error exDBnoGrid 5 1 2 rfl

/-- C5: round-trip identity.  For every coordinate whose stored grid blob
decompresses to a JSON object with no `data` field, if the handle has no
per-key detail view or there are zero detail rows for the coordinate,
`ReadGrid` returns exactly the stored blob unmodified. -/
theorem readGrid_roundtrip_identity (db : DB) (z x y : Nat) (blob : Blob)
    (o : List (String × Json))
    (hcontent : blob.content = some (Json.obj o))
    (hnodata : mlookup o "data" = none)
    (hgrid : db.hasUTFGrid = true)
    (hq : db.conn.gridQuery z x y = .ok blob)
    (hrows : db.hasUTFGridData = false ∨ db.conn.gridDataQuery z x y = .ok []) :
    ReadGrid db z x y = .ok (some blob) := by
  rcases hrows with hdv | hr
  · simp [ReadGrid, hgrid, hq, hdv]
  · by_cases hdv : db.hasUTFGridData = true
    · simp [ReadGrid, hgrid, hq, hdv, hr, List.isEmpty]
    · rw [Bool.not_eq_true] at hdv
      simp [ReadGrid, hgrid, hq, hdv]

/-- Witness for C5: a concrete handle with a grid view but no detail
view returns the stored blob unchanged. -/
theorem readGrid_roundtrip_identity_witness :
    ReadGrid exDBnoDetail 0 0 0 =
      .ok (some { env := ZLIB, content := some (Json.obj exGridObj) }) :=
  readGrid_roundtrip_identity exDBnoDetail 0 0 0
    { env := ZLIB, content := some (Json.obj exGridObj) } exGridObj
    rfl rfl rfl rfl (Or.inl rfl)

/-- C1 counterexample: on the claim's own scenario — a zlib-enveloped
grid blob decompressing to an object with a `grid` field, and detail rows
`("a", "1")` and `("b", "2")` whose values are JSON scalars — `ReadGrid`
returns a blob whose `data` field maps each key to the EMPTY JSON object,
not to the scalars `1` and `2`: `json.Unmarshal` into
`map[string]interface{}` fails on a scalar and the source discards the
error, so the claimed output `data = (a ↦ 1, b ↦ 2)` is not produced. -/
theorem readGrid_merge_scalar_counterexample :
    ReadGrid exDBscalar 0 0 0 =
      .ok (some { env := ZLIB, content := some (Json.obj
        [("grid", Json.arr [Json.str "aa", Json.str "ab"]),
         ("data", Json.obj [("a", Json.obj []), ("b", Json.obj [])])]) }) ∧
    Json.obj [("a", Json.obj []), ("b", Json.obj [])] ≠
      Json.obj [("a", Json.num 1), ("b", Json.num 2)] := by
  refine ⟨rfl, ?_⟩
  simp

/-- C1 amended: for every handle with zlib grid compression and per-key
detail support, a stored zlib blob decompressing to a JSON object, and
detail rows `("a", "1")` and `("b", "2")`, `ReadGrid` returns a
zlib-enveloped blob whose decompressed JSON is the stored object with its
`data` field set to the mapping taking both `a` and `b` to the empty
JSON object: each
row's value is decoded into a JSON-object map, a scalar value fails that
decode, the error is discarded, and the empty object is stored under the
row's key. -/
theorem readGrid_merge_objectified (db : DB) (z x y : Nat)
    (o : List (String × Json))
    (hgrid : db.hasUTFGrid = true)
    (hdetail : db.hasUTFGridData = true)
    (hcomp : db.utfgridCompression = ZLIB)
    (hq : db.conn.gridQuery z x y = .ok { env := ZLIB, content := some (Json.obj o) })
    (hrows : db.conn.gridDataQuery z x y =
      .ok [("a", some (Json.num 1)), ("b", some (Json.num 2))]) :
    ReadGrid db z x y =
      .ok (some { env := ZLIB, content := some (Json.obj
        (upsert o "data" (Json.obj [("a", Json.obj []), ("b", Json.obj [])]))) }) := by
  simp [ReadGrid, hgrid, hdetail, hcomp, hq, hrows, zlibNewReader,
    upsert, unmarshalKeyJson, List.isEmpty]

/-- Witness for the amended C1 on the concrete scalar-valued handle. -/
theorem readGrid_merge_objectified_witness :
    ReadGrid exDBscalar 0 0 0 =
      .ok (some { env := ZLIB, content := some (Json.obj
        (upsert exGridObj "data"
          (Json.obj [("a", Json.obj []), ("b", Json.obj [])]))) }) :=
  readGrid_merge_objectified exDBscalar 0 0 0 exGridObj rfl rfl rfl rfl rfl

/-- C2 (code bug evidence): a detail row whose `key_json` value is
malformed JSON does NOT make `ReadGrid` fail.  The source never checks
`json.Unmarshal`'s return value (mbtiles.go line 195), so the row's value
silently becomes the empty object and the call succeeds — against the
spec's rule that malformed JSON in detail rows is fatal to the call. -/
theorem readGrid_malformed_row_silently_ok :
    ReadGrid exDBmalformed 0 0 0 =
      .ok (some { env := ZLIB, content := some (Json.obj
        [("grid", Json.arr [Json.str "aa", Json.str "ab"]),
         ("data", Json.obj [("bad", Json.obj [])])]) }) :=
  rfl

/-- C10: on a handle with per-key detail support, a coordinate with a
detail row, and a stored blob with a valid zlib envelope whose
decompressed payload is not a JSON object (JSON `null`, or not JSON at
all), `ReadGrid` does not return an error: `jsonDecoder.Decode`'s error
is ignored, the decoded map stays nil, and the assignment
`utfjson["data"] = keydata` panics (mbtiles.go lines 224-230). -/
theorem readGrid_nil_map_panic :
    ReadGrid exDBnullBody 0 0 0 = .panic "assignment to entry in nil map" ∧
    ReadGrid exDBnotJson 0 0 0 = .panic "assignment to entry in nil map" :=
  ⟨rfl, rfl⟩

/-- C3: whenever the sample tile begins with the gzip magic bytes
`1f 8b`, every handle `NewDB` successfully constructs records the tile
format as vector-protobuf (`PBF`), never as `GZIP` — the gzip-to-PBF
reinterpretation of mbtiles.go lines 100-102 applies at the handle
level. -/
theorem newDB_gzip_reinterpreted_pbf (filename : String) (p : Probe) (conn : Conn)
    (d : Bytes) (db : DB)
    (hs : p.sampleTile = QRes.ok d)
    (hpref : ([0x1f, 0x8b] : Bytes).isPrefixOf d = true)
    (hok : NewDB filename p conn = .ok db) :
    db.tileformat = PBF := by
  have hdet : detectTileFormat d = (GZIP, none) := by
    simp [detectTileFormat, tilePatterns, detectList, hpref]
  simp only [NewDB, hs, hdet] at hok
  repeat' split at hok
  all_goals try simp_all
  all_goals rw [← hok]

/-- Witness for C3: a gzip-signed sample tile yields a handle whose tile
format is PBF. -/
theorem newDB_gzip_reinterpreted_pbf_witness :
    NewDB "x.mbtiles" exProbeGzip conn0 = .ok exDBfromGzip ∧
    exDBfromGzip.tileformat = PBF :=
  ⟨rfl, newDB_gzip_reinterpreted_pbf "x.mbtiles" exProbeGzip conn0
    [0x1f, 0x8b, 0x08, 0x00] exDBfromGzip rfl (by decide) rfl⟩

/-- C9 (code bug evidence): `NewDB` computes the identifier from the
path — base name truncated at the first dot, `"foo"` for
`"/tiles/foo.mbtiles"` — but then never stores it: the constructed
handle's only string attribute, the `filename` field of the `DB` struct,
is left at its zero value `""` by the struct literal at mbtiles.go lines
103-107, so the handle retains no identifier at all. -/
theorem newDB_identifier_discarded :
    newDBId "/tiles/foo.mbtiles" = "foo" ∧
    NewDB "/tiles/foo.mbtiles" exProbePng conn0 = .ok exDBfromPng ∧
    exDBfromPng.filename = "" :=
  ⟨rfl, rfl, rfl⟩

/-- C7: after the metadata row loop, (i) if `minzoom` and `maxzoom` are
both present the mapping is returned as-is, untouched by the fallback;
(ii) if not both present and the zoom-bounds fallback query fails, the
partially-built mapping is returned with no error and no zoom fields
added; (iii) if not both present and the fallback query succeeds, both
fields are set from its result. -/
theorem readMetadata_zoom_fallback (s2f : String → Except String (List Rat))
    (junm : String → Except String (List (String × MetaVal)))
    (db : DB) (rows : List (String × String)) (m : Metadata)
    (hq : db.conn.metadataQuery = .ok rows)
    (hp : processMetaRows s2f junm rows [] = .ok m) :
    (hasZooms m = true → ReadMetadata s2f junm db = .ok m) ∧
    (hasZooms m = false → ∀ e, db.conn.zoomQuery = .error e →
      ReadMetadata s2f junm db = .ok m) ∧
    (hasZooms m = false → ∀ mn mx, db.conn.zoomQuery = .ok (mn, mx) →
      ReadMetadata s2f junm db =
        .ok (upsert (upsert m "minzoom" (MetaVal.int mn)) "maxzoom" (MetaVal.int mx))) := by
  refine ⟨?_, ?_, ?_⟩
  · intro h
    simp [ReadMetadata, hq, hp, h]
  · intro h e hz
    simp [ReadMetadata, hq, hp, h, hz]
  · intro h mn mx hz
    simp [ReadMetadata, hq, hp, h, hz]

/-- Witness for C7: a handle whose metadata rows carry `minzoom` but no
`maxzoom` and whose fallback query fails returns the partial mapping
with no error. -/
theorem readMetadata_zoom_fallback_witness :
    ReadMetadata s2f0 junm0 exDBmeta =
      .ok [("name", MetaVal.str "test"), ("minzoom", MetaVal.int 2)] :=
  (readMetadata_zoom_fallback s2f0 junm0 exDBmeta
      [("name", "test"), ("minzoom", "2")]
      [("name", MetaVal.str "test"), ("minzoom", MetaVal.int 2)] rfl rfl).2.1 rfl
    "sql: Scan error on column index 0" rfl
